import Mathlib

/-!
Verification of the authorization-code grant type
(src/lib/grant-types/authorization-code-grant-type.ts).

The TypeScript class is embedded shallowly: JavaScript falsiness of optional
strings is modelled by `strTruthy` (absent or empty string is falsy), thrown
errors by an `Except OAuthError` result, `Date` values by integer millisecond
timestamps (`expiresAt : Option Int`, `none` standing for a value that is not
a `Date` instance), and the calls `handle` makes to the storage collaborator
by an explicit event trace.
-/

deriving instance DecidableEq for Except

/-- Error kinds of ../errors used by the grant type, with their messages. -/
inductive OAuthError where
  | invalidArgument (msg : String)
  | invalidGrant (msg : String)
  | invalidRequest (msg : String)
  | serverError (msg : String)
deriving DecidableEq, Repr

/-- Client: only the identity is consulted by this core. -/
structure Client where
  id : String
deriving DecidableEq, Repr

/-- User: opaque identity, passed through unchanged to token issuance. -/
structure User where
  id : String
deriving DecidableEq, Repr

/-- AuthorizationCode record as returned by the storage collaborator.
`client`, `user` may be absent (a storage-contract violation), `expiresAt`
is `none` when the stored value is not a `Date` instance, and the optional
string fields use `Option String` with JavaScript falsiness given by
`strTruthy`. -/
structure AuthorizationCode where
  authorizationCode : String
  client : Option Client
  user : Option User
  expiresAt : Option Int
  redirectUri : Option String
  scope : String
  codeChallenge : Option String
  codeChallengeMethod : Option String
deriving DecidableEq, Repr

/-- Token record assembled by saveToken. -/
structure Token where
  accessToken : String
  authorizationCode : String
  accessTokenExpiresAt : Int
  refreshToken : String
  refreshTokenExpiresAt : Int
  scope : String
deriving DecidableEq, Repr

/-- Body of the token-exchange request: the fields this core reads. -/
structure RequestBody where
  code : Option String
  code_verifier : Option String
  redirect_uri : Option String
deriving DecidableEq, Repr

/-- Query of the token-exchange request: only redirect_uri is read. -/
structure RequestQuery where
  redirect_uri : Option String
deriving DecidableEq, Repr

/-- Request: body and query as consumed by the grant type. -/
structure Request where
  body : RequestBody
  query : RequestQuery
deriving DecidableEq, Repr

/-- Value of an optional string field, absent read as the empty string. -/
def optStr (o : Option String) : String := o.getD ""

/-- JavaScript truthiness of an optional string: absent and `""` are falsy. -/
def strTruthy (o : Option String) : Bool := optStr o ≠ ""

/-- Modelled from the spec: `is.vschar` of src/lib/validator/is.ts is not in
the provided sources; per the spec it accepts a nonempty string over the
restricted visible-ASCII character class (no control characters, no space). -/
def vschar (s : String) : Bool :=
  s.length > 0 && s.toList.all (fun c => 0x21 ≤ c.toNat && c.toNat ≤ 0x7E)

/-- Modelled from the spec: the URL-safe base64 alphabet used by
`base64URLEncode` of src/lib/utils/string-util.ts, which is not in the
provided sources. -/
def b64urlAlphabet : List Char :=
  "ABCDEFGHIJKLMNOPQRSTUVWXYZabcdefghijklmnopqrstuvwxyz0123456789-_".toList

/-- Character of the URL-safe base64 alphabet at a 6-bit index. -/
def b64Char (n : Nat) : Char := b64urlAlphabet.getD n 'A'

/-- Modelled from the spec: `base64URLEncode` of src/lib/utils/string-util.ts
is not in the provided sources; per the spec it is unpadded base64 over the
URL-safe alphabet of the digest bytes. -/
def base64URLEncode : List Nat → String
  | [] => ""
  | [b1] =>
      String.mk [b64Char (b1 / 4 % 64), b64Char (b1 % 4 * 16)]
  | [b1, b2] =>
      String.mk [b64Char (b1 / 4 % 64), b64Char (b1 % 4 * 16 + b2 / 16 % 16),
        b64Char (b2 % 16 * 4)]
  | b1 :: b2 :: b3 :: rest =>
      String.mk [b64Char (b1 / 4 % 64), b64Char (b1 % 4 * 16 + b2 / 16 % 16),
        b64Char (b2 % 16 % 16 * 4 + b3 / 64 % 4), b64Char (b3 % 64)]
        ++ base64URLEncode rest

/-- External, non-repository dependencies of the grant type.
`uri` is `is.uri` of src/lib/validator/is.ts (not in the provided sources;
the spec says only that it tests syntactic URI validity, so it is kept
abstract), and `sha256` is the byte digest computed by node's
`crypto.createHash('sha256')` on the UTF-8 bytes of its input. -/
structure Deps where
  uri : String → Bool
  sha256 : String → List Nat

/-- The storage/model collaborator together with the helpers inherited from
AbstractGrantType. The first three fields are the capability contract of §6.
The last five are Modelled from the spec: AbstractGrantType is not in the
provided sources; per the spec they are delegated scope resolution, token
string generation and expiry policy, each a single collaborator call. -/
structure Model where
  getAuthorizationCode : String → Option AuthorizationCode
  revokeAuthorizationCode : AuthorizationCode → Bool
  saveToken : Token → Client → User → Token
  validateScope : User → Client → String → String
  generateAccessToken : Client → User → String → String
  generateRefreshToken : Client → User → String → String
  accessTokenExpiresAt : Int
  refreshTokenExpiresAt : Int

/-- getAuthorizationCode (lines 70-150): request-format checks, lookup,
client binding, expiry, stored redirect URI syntax and PKCE verification,
in source order and fail-fast. `now` is `Date.now()`. -/
def getAuthorizationCode (deps : Deps) (model : Model) (now : Int)
    (request : Request) (client : Client) : Except OAuthError AuthorizationCode :=
  if !strTruthy request.body.code then
    .error (.invalidRequest "Missing parameter: `code`")
  else if !vschar (optStr request.body.code) then
    .error (.invalidRequest "Invalid parameter: `code`")
  else
    match model.getAuthorizationCode (optStr request.body.code) with
    | none => .error (.invalidGrant "Invalid grant: authorization code is invalid")
    | some code =>
      match code.client with
      | none => .error (.serverError
          "Server error: `getAuthorizationCode()` did not return a `client` object")
      | some codeClient =>
        match code.user with
        | none => .error (.serverError
            "Server error: `getAuthorizationCode()` did not return a `user` object")
        | some _codeUser =>
          if codeClient.id ≠ client.id then
            .error (.invalidGrant "Invalid grant: authorization code is invalid")
          else
            match code.expiresAt with
            | none => .error (.serverError "Server error: `expiresAt` must be a Date instance")
            | some expiresAt =>
              if expiresAt < now then
                .error (.invalidGrant "Invalid grant: authorization code has expired")
              else if strTruthy code.redirectUri && !deps.uri (optStr code.redirectUri) then
                .error (.invalidGrant "Invalid grant: `redirect_uri` is not a valid URI")
              else if strTruthy code.codeChallenge then
                if !strTruthy request.body.code_verifier then
                  .error (.invalidGrant "Missing parameter: `code_verifier`")
                else
                  match code.codeChallengeMethod with
                  | some "plain" =>
                    if optStr code.codeChallenge ≠ optStr request.body.code_verifier then
                      .error (.invalidGrant "Invalid grant: code verifier is invalid")
                    else .ok code
                  | some "S256" =>
                    if optStr code.codeChallenge ≠
                        base64URLEncode (deps.sha256 (optStr request.body.code_verifier)) then
                      .error (.invalidGrant "Invalid grant: code verifier is invalid")
                    else .ok code
                  | _ => .error (.serverError
                      "Server error: `getAuthorizationCode()` did not return a valid `codeChallengeMethod` property")
              else if strTruthy request.body.code_verifier then
                .error (.invalidGrant "Invalid grant: code verifier is invalid")
              else .ok code

/-- The redirect URI a request supplies: the body field with query fallback,
JavaScript `request.body.redirect_uri || request.query.redirect_uri`. -/
def requestRedirectUri (request : Request) : String :=
  if strTruthy request.body.redirect_uri then optStr request.body.redirect_uri
  else optStr request.query.redirect_uri

/-- validateRedirectUri (lines 163-181): no-op without a stored redirect URI;
otherwise body value with query fallback (JavaScript `||`), URI syntax check,
then exact string equality. -/
def validateRedirectUri (deps : Deps) (request : Request)
    (code : AuthorizationCode) : Except OAuthError Unit :=
  if !strTruthy code.redirectUri then
    .ok ()
  else
    let redirectUri := requestRedirectUri request
    if !deps.uri redirectUri then
      .error (.invalidRequest "Invalid request: `redirect_uri` is not a valid URI")
    else if redirectUri ≠ optStr code.redirectUri then
      .error (.invalidRequest "Invalid request: `redirect_uri` is invalid")
    else
      .ok ()

/-- revokeAuthorizationCode (lines 193-202): delegate to the collaborator and
treat a falsy status as an invalid grant. -/
def revokeAuthorizationCode (model : Model) (code : AuthorizationCode) :
    Except OAuthError AuthorizationCode :=
  if model.revokeAuthorizationCode code then .ok code
  else .error (.invalidGrant "Invalid grant: authorization code is invalid")

/-- Calls `handle` makes to the mutating collaborator operations, recorded
in call order. -/
inductive Event where
  | revokeCalled (code : AuthorizationCode)
  | saveTokenCalled (token : Token) (client : Client) (user : User)
deriving DecidableEq, Repr

/-- saveToken (lines 208-230): scope resolution, token string generation with
the original scope argument, expiry stamping, assembly and persistence.
Returns the persisted token and the trace of the persistence call. -/
def saveTokenRun (model : Model) (user : User) (client : Client)
    (authorizationCode : String) (scope : String) : Token × List Event :=
  let accessScope := model.validateScope user client scope
  let accessToken := model.generateAccessToken client user scope
  let refreshToken := model.generateRefreshToken client user scope
  let token : Token :=
    { accessToken := accessToken
      authorizationCode := authorizationCode
      accessTokenExpiresAt := model.accessTokenExpiresAt
      refreshToken := refreshToken
      refreshTokenExpiresAt := model.refreshTokenExpiresAt
      scope := accessScope }
  (model.saveToken token client user, [Event.saveTokenCalled token client user])

/-- The user reference of a code record as `handle` reads it; `handle` only
reaches this read after validation guarantees the reference is present. -/
def userOf (code : AuthorizationCode) : User := code.user.getD { id := "" }

/-- handle (lines 46-64): null checks, fetch and validate the code, check the
redirect URI, revoke, then issue and persist the token. The second component
is the trace of mutating collaborator calls in order. -/
def handleRun (deps : Deps) (model : Model) (now : Int)
    (request : Option Request) (client : Option Client) :
    Except OAuthError Token × List Event :=
  match request with
  | none => (.error (.invalidArgument "Missing parameter: `request`"), [])
  | some request =>
    match client with
    | none => (.error (.invalidArgument "Missing parameter: `client`"), [])
    | some client =>
      match getAuthorizationCode deps model now request client with
      | .error e => (.error e, [])
      | .ok code =>
        match validateRedirectUri deps request code with
        | .error e => (.error e, [])
        | .ok _ =>
          match revokeAuthorizationCode model code with
          | .error e => (.error e, [Event.revokeCalled code])
          | .ok code' =>
            let r := saveTokenRun model (userOf code') client
              code'.authorizationCode code'.scope
            (.ok r.1, Event.revokeCalled code :: r.2)

/-- Duck-typed capability surface of the collaborator passed at construction:
which of the three required operations it implements. -/
structure ModelCaps where
  hasGetAuthorizationCode : Bool
  hasRevokeAuthorizationCode : Bool
  hasSaveToken : Bool
deriving DecidableEq, Repr

/-- Options given to the constructor; `model` may be absent. -/
structure Options where
  model : Option ModelCaps
deriving DecidableEq, Repr

/-- Constructor (lines 15-38): capability checks performed at construction
time, in source order. -/
def constructorCheck (options : Options) : Except OAuthError Unit :=
  match options.model with
  | none => .error (.invalidArgument "Missing parameter: `model`")
  | some m =>
    if !m.hasGetAuthorizationCode then
      .error (.invalidArgument
        "Invalid argument: model does not implement `getAuthorizationCode()`")
    else if !m.hasRevokeAuthorizationCode then
      .error (.invalidArgument
        "Invalid argument: model does not implement `revokeAuthorizationCode()`")
    else if !m.hasSaveToken then
      .error (.invalidArgument
        "Invalid argument: model does not implement `saveToken()`")
    else
      .ok ()

/-! Concrete collaborators used to exercise the definitions. -/

/-- A dependency bundle whose URI validator accepts everything and whose
hash maps every input to the single byte 0. -/
def depsTrue : Deps := ⟨fun _ => true, fun _ => [0]⟩

/-- Builds a model from a code store and a revocation outcome, with identity
scope resolution, fixed token strings and fixed lifetimes. -/
def mkModel (store : String → Option AuthorizationCode)
    (rev : AuthorizationCode → Bool) : Model :=
  { getAuthorizationCode := store
    revokeAuthorizationCode := rev
    saveToken := fun t _ _ => t
    validateScope := fun _ _ s => s
    generateAccessToken := fun _ _ _ => "generated-access-token"
    generateRefreshToken := fun _ _ _ => "generated-refresh-token"
    accessTokenExpiresAt := 3600000
    refreshTokenExpiresAt := 7200000 }

/-- Claim C10: in saveToken, the access- and refresh-token string generators
are invoked with the original (unresolved) scope argument taken from the code
record, and only the scope field of the assembled Token receives the value
resolved by scope validation. -/
theorem c10_generators_receive_original_scope (model : Model) (u : User)
    (c : Client) (ac s : String) :
    saveTokenRun model u c ac s =
      (model.saveToken
        { accessToken := model.generateAccessToken c u s
          authorizationCode := ac
          accessTokenExpiresAt := model.accessTokenExpiresAt
          refreshToken := model.generateRefreshToken c u s
          refreshTokenExpiresAt := model.refreshTokenExpiresAt
          scope := model.validateScope u c s } c u,
       [Event.saveTokenCalled
        { accessToken := model.generateAccessToken c u s
          authorizationCode := ac
          accessTokenExpiresAt := model.accessTokenExpiresAt
          refreshToken := model.generateRefreshToken c u s
          refreshTokenExpiresAt := model.refreshTokenExpiresAt
          scope := model.validateScope u c s } c u]) := rfl

/-- Claim C6: validateRedirectUri is a no-op when the code record stores no
redirect URI; otherwise it reads the request value (body with query fallback)
and returns normally exactly when that value passes the URI validator and is
string-equal to the stored value, throwing InvalidRequestError (the
malformed-request kind, never InvalidGrantError) in every other case. -/
theorem c6_redirect_uri_check (deps : Deps) (request : Request)
    (code : AuthorizationCode) :
    (strTruthy code.redirectUri = false →
      validateRedirectUri deps request code = .ok ()) ∧
    (strTruthy code.redirectUri = true →
      ((validateRedirectUri deps request code = .ok ()) ↔
        (deps.uri (requestRedirectUri request) = true ∧
         requestRedirectUri request = optStr code.redirectUri)) ∧
      (¬ (deps.uri (requestRedirectUri request) = true ∧
          requestRedirectUri request = optStr code.redirectUri) →
        ∃ m, validateRedirectUri deps request code = .error (.invalidRequest m))) := by
  constructor
  · intro h
    simp [validateRedirectUri, h]
  · intro h
    simp only [validateRedirectUri, h, Bool.not_true, Bool.false_eq_true, if_false]
    constructor
    · split_ifs with h1 h2 <;> simp_all
    · intro hn
      split_ifs with h1 h2 <;> simp_all

/-- Fixture for C6: a code record storing a redirect URI. -/
def codeC6 : AuthorizationCode :=
  { authorizationCode := "code6"
    client := some ⟨"c6"⟩
    user := some ⟨"u6"⟩
    expiresAt := some 1000
    redirectUri := some "https://cb.example/path"
    scope := "s6"
    codeChallenge := none
    codeChallengeMethod := none }

/-- Fixture for C6: a request supplying the matching redirect URI in the body. -/
def reqC6 : Request :=
  ⟨⟨some "code6", none, some "https://cb.example/path"⟩, ⟨none⟩⟩

/-- Witness for C6 at a concrete matching request: the check returns normally. -/
theorem c6_redirect_uri_check_witness :
    validateRedirectUri depsTrue reqC6 codeC6 = .ok () :=
  ((c6_redirect_uri_check depsTrue reqC6 codeC6).2 (by decide)).1.mpr (by decide)

/-- Claim C5: when a fetched record (passing the lookup, binding, expiry and
stored-redirect-URI checks) carries no PKCE challenge, a request-supplied
code_verifier yields InvalidGrantError, and with no verifier the PKCE step is
skipped and the record is returned. -/
theorem c5_verifier_without_challenge (deps : Deps) (model : Model) (now : Int)
    (request : Request) (client : Client) (code : AuthorizationCode)
    (cc : Client) (u : User) (t : Int)
    (hc : strTruthy request.body.code = true)
    (hv : vschar (optStr request.body.code) = true)
    (hfetch : model.getAuthorizationCode (optStr request.body.code) = some code)
    (hcc : code.client = some cc) (hu : code.user = some u)
    (hid : cc.id = client.id)
    (ht : code.expiresAt = some t) (hexp : ¬ t < now)
    (hred : (strTruthy code.redirectUri && !deps.uri (optStr code.redirectUri)) = false)
    (hch : strTruthy code.codeChallenge = false) :
    (strTruthy request.body.code_verifier = true →
      getAuthorizationCode deps model now request client =
        .error (.invalidGrant "Invalid grant: code verifier is invalid")) ∧
    (strTruthy request.body.code_verifier = false →
      getAuthorizationCode deps model now request client = .ok code) := by
  constructor <;> intro hver <;>
    simp [getAuthorizationCode, hc, hv, hfetch, hcc, hu, hid, ht, hexp, hred, hch, hver]

/-- Fixture for C5: a valid challenge-free code record. -/
def codeC5 : AuthorizationCode :=
  { authorizationCode := "code5"
    client := some ⟨"c5"⟩
    user := some ⟨"u5"⟩
    expiresAt := some 1000
    redirectUri := none
    scope := "s5"
    codeChallenge := none
    codeChallengeMethod := none }

/-- Fixture for C5: the store holding exactly codeC5. -/
def modelC5 : Model := mkModel (fun s => if s = "code5" then some codeC5 else none) (fun _ => true)

/-- Fixture for C5: a request presenting codeC5 together with a verifier. -/
def reqC5 : Request := ⟨⟨some "code5", some "stray-verifier", none⟩, ⟨none⟩⟩

/-- Witness for C5 at a concrete challenge-free code with a stray verifier:
the exchange is rejected as an invalid grant. -/
theorem c5_verifier_without_challenge_witness :
    getAuthorizationCode depsTrue modelC5 0 reqC5 ⟨"c5"⟩ =
      .error (.invalidGrant "Invalid grant: code verifier is invalid") :=
  (c5_verifier_without_challenge depsTrue modelC5 0 reqC5 ⟨"c5"⟩ codeC5 ⟨"c5"⟩ ⟨"u5"⟩ 1000
    (by decide) (by decide) (by decide) rfl rfl rfl rfl (by decide) (by decide)
    (by decide)).1 (by decide)

/-- getAuthorizationCode never raises the configuration-error kind. -/
theorem getAuthorizationCode_ne_invalidArgument (deps : Deps) (model : Model)
    (now : Int) (request : Request) (client : Client) (m : String) :
    getAuthorizationCode deps model now request client ≠
      .error (.invalidArgument m) := by
  unfold getAuthorizationCode
  intro h
  repeat' split at h
  all_goals simp_all

/-- validateRedirectUri never raises the configuration-error kind. -/
theorem validateRedirectUri_ne_invalidArgument (deps : Deps) (request : Request)
    (code : AuthorizationCode) (m : String) :
    validateRedirectUri deps request code ≠ .error (.invalidArgument m) := by
  intro h
  simp only [validateRedirectUri] at h
  split_ifs at h <;> simp_all

/-- Outcomes of the revocation wrapper: success returns the same code when the
collaborator reports truthy consumption. -/
theorem revokeAuthorizationCode_ok_iff (model : Model) (code code' : AuthorizationCode) :
    revokeAuthorizationCode model code = .ok code' ↔
      (model.revokeAuthorizationCode code = true ∧ code' = code) := by
  unfold revokeAuthorizationCode
  split <;> simp_all
  exact eq_comm

/-- Outcomes of the revocation wrapper: a falsy collaborator status becomes
exactly the invalid-grant error. -/
theorem revokeAuthorizationCode_error_iff (model : Model) (code : AuthorizationCode)
    (e : OAuthError) :
    revokeAuthorizationCode model code = .error e ↔
      (model.revokeAuthorizationCode code = false ∧
       e = .invalidGrant "Invalid grant: authorization code is invalid") := by
  unfold revokeAuthorizationCode
  split <;> simp_all
  exact eq_comm

/-- Claim C9: the constructor raises InvalidArgumentError exactly when the
options lack a model or the model lacks one of getAuthorizationCode,
revokeAuthorizationCode or saveToken; and handle itself never raises a
missing-capability configuration error — its only InvalidArgumentError
messages concern the request and client parameters. -/
theorem c9_capability_checked_at_construction :
    (∀ options : Options,
      (∃ m, constructorCheck options = .error (.invalidArgument m)) ↔
        (options.model = none ∨ ∃ mc, options.model = some mc ∧
          (mc.hasGetAuthorizationCode = false ∨ mc.hasRevokeAuthorizationCode = false ∨
           mc.hasSaveToken = false))) ∧
    (∀ (deps : Deps) (model : Model) (now : Int) (request : Option Request)
        (client : Option Client) (m : String),
      (handleRun deps model now request client).1 = .error (.invalidArgument m) →
      m = "Missing parameter: `request`" ∨ m = "Missing parameter: `client`") := by
  constructor
  · intro options
    obtain ⟨om⟩ := options
    cases om with
    | none => simp [constructorCheck]
    | some mc =>
      obtain ⟨g, r, s⟩ := mc
      cases g <;> cases r <;> cases s <;> simp [constructorCheck]
  · intro deps model now request client m h
    unfold handleRun at h
    split at h
    · simp at h
      exact Or.inl h.symm
    · split at h
      · simp at h
        exact Or.inr h.symm
      · split at h
        · rename_i e heq
          simp at h
          subst h
          exact absurd heq (getAuthorizationCode_ne_invalidArgument _ _ _ _ _ _)
        · split at h
          · rename_i e heq
            simp at h
            subst h
            exact absurd heq (validateRedirectUri_ne_invalidArgument _ _ _ _)
          · split at h
            · rename_i e heq
              simp at h
              subst h
              rw [revokeAuthorizationCode_error_iff] at heq
              simp at heq
            · simp at h

/-- Witness for C9: missing model is rejected at construction, and a concrete
handle invocation that does raise InvalidArgumentError does so about the
request parameter. -/
theorem c9_capability_checked_at_construction_witness :
    (∃ m, constructorCheck ⟨none⟩ = .error (.invalidArgument m)) ∧
    ("Missing parameter: `request`" = "Missing parameter: `request`" ∨
     "Missing parameter: `request`" = "Missing parameter: `client`") :=
  ⟨(c9_capability_checked_at_construction.1 ⟨none⟩).mpr (Or.inl rfl),
   c9_capability_checked_at_construction.2 depsTrue modelC5 0 none none
     "Missing parameter: `request`" (by decide)⟩

/-- Fixture for C2: a record expiring exactly at instant 1000. -/
def codeC2 : AuthorizationCode :=
  { authorizationCode := "code2"
    client := some ⟨"c2"⟩
    user := some ⟨"u2"⟩
    expiresAt := some 1000
    redirectUri := none
    scope := "s2"
    codeChallenge := none
    codeChallengeMethod := none }

/-- Fixture for C2: the store holding exactly codeC2. -/
def modelC2 : Model := mkModel (fun s => if s = "code2" then some codeC2 else none) (fun _ => true)

/-- Fixture for C2: a request presenting codeC2. -/
def reqC2 : Request := ⟨⟨some "code2", none, none⟩, ⟨none⟩⟩

/-- Counterexample to C2 as stated: at the instant now = 1000, a fetched
record whose expiry timestamp is exactly equal to the current instant is
accepted (the code uses a strict comparison), not rejected with
InvalidGrantError. -/
theorem c2_equal_expiry_accepted_counterexample :
    modelC2.getAuthorizationCode "code2" = some codeC2 ∧
    codeC2.expiresAt = some 1000 ∧
    getAuthorizationCode depsTrue modelC2 1000 reqC2 ⟨"c2"⟩ = .ok codeC2 := by
  decide

/-- Claim C2 (amended): every fetched record whose expiry timestamp is
strictly before the current instant is rejected by getAuthorizationCode with
the expired-code InvalidGrantError; an expiry exactly equal to the current
instant passes the expiry check. -/
theorem c2_strictly_expired_code_rejected (deps : Deps) (model : Model)
    (now : Int) (request : Request) (client : Client) (code : AuthorizationCode)
    (cc : Client) (u : User) (t : Int)
    (hc : strTruthy request.body.code = true)
    (hv : vschar (optStr request.body.code) = true)
    (hfetch : model.getAuthorizationCode (optStr request.body.code) = some code)
    (hcc : code.client = some cc) (hu : code.user = some u)
    (hid : cc.id = client.id)
    (ht : code.expiresAt = some t) (hexp : t < now) :
    getAuthorizationCode deps model now request client =
      .error (.invalidGrant "Invalid grant: authorization code has expired") := by
  simp [getAuthorizationCode, hc, hv, hfetch, hcc, hu, hid, ht, hexp]

/-- Witness for the amended C2 at now = 2000 against the record expiring at
1000. -/
theorem c2_strictly_expired_code_rejected_witness :
    getAuthorizationCode depsTrue modelC2 2000 reqC2 ⟨"c2"⟩ =
      .error (.invalidGrant "Invalid grant: authorization code has expired") :=
  c2_strictly_expired_code_rejected depsTrue modelC2 2000 reqC2 ⟨"c2"⟩ codeC2
    ⟨"c2"⟩ ⟨"u2"⟩ 1000 (by decide) (by decide) (by decide) rfl rfl rfl rfl
    (by decide)

/-- Fixture for C4: a record bound to client c4 and long expired. -/
def codeC4 : AuthorizationCode :=
  { authorizationCode := "code4"
    client := some ⟨"c4"⟩
    user := some ⟨"u4"⟩
    expiresAt := some 1000
    redirectUri := none
    scope := "s4"
    codeChallenge := none
    codeChallengeMethod := none }

/-- Fixture for C4: a store in which only code4 exists. -/
def modelC4 : Model := mkModel (fun s => if s = "code4" then some codeC4 else none) (fun _ => true)

/-- Fixture for C4: a request presenting a code that is not in the store. -/
def reqC4gone : Request := ⟨⟨some "no-such-code", none, none⟩, ⟨none⟩⟩

/-- Fixture for C4: a request presenting the expired code4. -/
def reqC4exp : Request := ⟨⟨some "code4", none, none⟩, ⟨none⟩⟩

/-- Counterexample to C4 as stated: at now = 2000, a nonexistent code and an
expired code both raise InvalidGrantError but with different messages, so the
three failure outcomes are not all externally identical. -/
theorem c4_expired_message_differs_counterexample :
    getAuthorizationCode depsTrue modelC4 2000 reqC4gone ⟨"c4"⟩ =
      .error (.invalidGrant "Invalid grant: authorization code is invalid") ∧
    getAuthorizationCode depsTrue modelC4 2000 reqC4exp ⟨"c4"⟩ =
      .error (.invalidGrant "Invalid grant: authorization code has expired") ∧
    "Invalid grant: authorization code is invalid" ≠
      "Invalid grant: authorization code has expired" := by
  decide

/-- Claim C4 (amended): a nonexistent code and a code bound to a different
client raise the identical InvalidGrantError with the identical message,
giving the caller no distinguishing signal between those two; an expired code
raises the same InvalidGrantError kind but with the distinct expired-code
message. -/
theorem c4_failure_outcomes (deps : Deps) (model : Model) (now : Int)
    (request : Request) (client : Client)
    (hc : strTruthy request.body.code = true)
    (hv : vschar (optStr request.body.code) = true) :
    (model.getAuthorizationCode (optStr request.body.code) = none →
      getAuthorizationCode deps model now request client =
        .error (.invalidGrant "Invalid grant: authorization code is invalid")) ∧
    (∀ code cc u,
      model.getAuthorizationCode (optStr request.body.code) = some code →
      code.client = some cc → code.user = some u → cc.id ≠ client.id →
      getAuthorizationCode deps model now request client =
        .error (.invalidGrant "Invalid grant: authorization code is invalid")) ∧
    (∀ code cc u t,
      model.getAuthorizationCode (optStr request.body.code) = some code →
      code.client = some cc → code.user = some u → cc.id = client.id →
      code.expiresAt = some t → t < now →
      getAuthorizationCode deps model now request client =
        .error (.invalidGrant "Invalid grant: authorization code has expired")) := by
  refine ⟨fun hfetch => ?_, fun code cc u hfetch hcc hu hid => ?_,
    fun code cc u t hfetch hcc hu hid ht hexp => ?_⟩
  · simp [getAuthorizationCode, hc, hv, hfetch]
  · simp [getAuthorizationCode, hc, hv, hfetch, hcc, hu, hid]
  · simp [getAuthorizationCode, hc, hv, hfetch, hcc, hu, hid, ht, hexp]

/-- Witness for the amended C4: the nonexistent-code case at a concrete
store, together with the wrong-client case for code4. -/
theorem c4_failure_outcomes_witness :
    getAuthorizationCode depsTrue modelC4 0 reqC4gone ⟨"c4"⟩ =
      .error (.invalidGrant "Invalid grant: authorization code is invalid") ∧
    getAuthorizationCode depsTrue modelC4 0 reqC4exp ⟨"other-client"⟩ =
      .error (.invalidGrant "Invalid grant: authorization code is invalid") :=
  ⟨(c4_failure_outcomes depsTrue modelC4 0 reqC4gone ⟨"c4"⟩ (by decide)
      (by decide)).1 (by decide),
   (c4_failure_outcomes depsTrue modelC4 0 reqC4exp ⟨"other-client"⟩ (by decide)
      (by decide)).2.1 codeC4 ⟨"c4"⟩ ⟨"u4"⟩ (by decide) rfl rfl (by decide)⟩

/-- Reading an optional string field that is present gives its value. -/
theorem optStr_some (s : String) : optStr (some s) = s := rfl

/-- Claim C3: for a fetched record carrying an S256 challenge and a request
supplying a code_verifier (earlier checks passing), getAuthorizationCode
accepts the PKCE proof exactly when the unpadded URL-safe base64 encoding of
the SHA-256 digest of the verifier equals the stored challenge, and otherwise
raises InvalidGrantError. -/
theorem c3_s256_challenge_comparison (deps : Deps) (model : Model) (now : Int)
    (request : Request) (client : Client) (code : AuthorizationCode)
    (cc : Client) (u : User) (t : Int) (ch v : String)
    (hc : strTruthy request.body.code = true)
    (hv : vschar (optStr request.body.code) = true)
    (hfetch : model.getAuthorizationCode (optStr request.body.code) = some code)
    (hcc : code.client = some cc) (hu : code.user = some u)
    (hid : cc.id = client.id)
    (ht : code.expiresAt = some t) (hexp : ¬ t < now)
    (hred : (strTruthy code.redirectUri && !deps.uri (optStr code.redirectUri)) = false)
    (hch : code.codeChallenge = some ch) (hchne : ch ≠ "")
    (hm : code.codeChallengeMethod = some "S256")
    (hver : request.body.code_verifier = some v) (hvne : v ≠ "") :
    ((getAuthorizationCode deps model now request client = .ok code) ↔
      base64URLEncode (deps.sha256 v) = ch) ∧
    (base64URLEncode (deps.sha256 v) ≠ ch →
      getAuthorizationCode deps model now request client =
        .error (.invalidGrant "Invalid grant: code verifier is invalid")) := by
  have hcht : strTruthy (some ch) = true := by
    simp [strTruthy, optStr, hchne]
  have hvt : strTruthy (some v) = true := by
    simp [strTruthy, optStr, hvne]
  have key : getAuthorizationCode deps model now request client =
      if ch ≠ base64URLEncode (deps.sha256 v) then
        .error (.invalidGrant "Invalid grant: code verifier is invalid")
      else .ok code := by
    simp [getAuthorizationCode, hc, hv, hfetch, hcc, hu, hid, ht, hexp, hred,
      hcht, hvt, hch, hm, hver, optStr_some]
  rw [key]
  by_cases heq : base64URLEncode (deps.sha256 v) = ch
  · simp [heq]
  · have hne : ch ≠ base64URLEncode (deps.sha256 v) := Ne.symm heq
    simp [heq, hne]

/-- Fixture for C3: the record of the spec scenario, holding the challenge
matching the digest the fixture hash assigns to every verifier. -/
def codeC3 : AuthorizationCode :=
  { authorizationCode := "abc123"
    client := some ⟨"c3"⟩
    user := some ⟨"u3"⟩
    expiresAt := some 1000
    redirectUri := none
    scope := "s3"
    codeChallenge := some "AA"
    codeChallengeMethod := some "S256" }

/-- Fixture for C3: the store holding exactly codeC3. -/
def modelC3 : Model := mkModel (fun s => if s = "abc123" then some codeC3 else none) (fun _ => true)

/-- Fixture for C3: the exchange request supplying the verifier. -/
def reqC3 : Request := ⟨⟨some "abc123", some "verifier-xyz", none⟩, ⟨none⟩⟩

/-- Witness for C3: with the fixture hash, base64URLEncode of the digest of
the supplied verifier equals the stored challenge and the record is
returned. -/
theorem c3_s256_challenge_comparison_witness :
    getAuthorizationCode depsTrue modelC3 0 reqC3 ⟨"c3"⟩ = .ok codeC3 :=
  (c3_s256_challenge_comparison depsTrue modelC3 0 reqC3 ⟨"c3"⟩ codeC3 ⟨"c3"⟩
    ⟨"u3"⟩ 1000 "AA" "verifier-xyz" (by decide) (by decide) (by decide) rfl rfl
    rfl rfl (by decide) (by decide) rfl (by decide) rfl rfl (by decide)).1.mpr
    (by decide)

/-- Claim C7 (amended): every ServerError raised by getAuthorizationCode
comes from a fetched record that is structurally invalid — missing client,
missing user, an expiry that is not a Date instance, or a PKCE challenge with
an unrecognized method — never from the request input alone. -/
theorem c7_server_error_only_structural (deps : Deps) (model : Model)
    (now : Int) (request : Request) (client : Client) (m : String)
    (h : getAuthorizationCode deps model now request client =
      .error (.serverError m)) :
    ∃ code, model.getAuthorizationCode (optStr request.body.code) = some code ∧
      (code.client = none ∨ code.user = none ∨ code.expiresAt = none ∨
        (strTruthy code.codeChallenge = true ∧
         code.codeChallengeMethod ≠ some "plain" ∧
         code.codeChallengeMethod ≠ some "S256")) := by
  unfold getAuthorizationCode at h
  repeat' split at h
  all_goals simp_all

/-- Fixture for C7: a record carrying a challenge with an unrecognized
method. -/
def codeC7 : AuthorizationCode :=
  { authorizationCode := "code7"
    client := some ⟨"c7"⟩
    user := some ⟨"u7"⟩
    expiresAt := some 1000
    redirectUri := none
    scope := "s7"
    codeChallenge := some "x"
    codeChallengeMethod := some "bogus" }

/-- Fixture for C7: the store holding exactly codeC7. -/
def modelC7 : Model := mkModel (fun s => if s = "code7" then some codeC7 else none) (fun _ => true)

/-- Fixture for C7: a request presenting code7 without a verifier. -/
def reqC7 : Request := ⟨⟨some "code7", none, none⟩, ⟨none⟩⟩

/-- Counterexample to C7 as stated: a fetched record that is structurally
invalid (challenge present with the unrecognized method "bogus") raises
InvalidGrantError about the missing verifier, not ServerError, so ServerError
is not raised exactly when the record is structurally invalid. -/
theorem c7_bad_method_without_verifier_counterexample :
    codeC7.codeChallenge = some "x" ∧
    codeC7.codeChallengeMethod = some "bogus" ∧
    getAuthorizationCode depsTrue modelC7 0 reqC7 ⟨"c7"⟩ =
      .error (.invalidGrant "Missing parameter: `code_verifier`") := by
  decide

/-- Fixture for C7: a record whose store forgot the client reference. -/
def codeC7b : AuthorizationCode :=
  { authorizationCode := "code7b"
    client := none
    user := some ⟨"u7"⟩
    expiresAt := some 1000
    redirectUri := none
    scope := "s7"
    codeChallenge := none
    codeChallengeMethod := none }

/-- Fixture for C7: the store holding exactly codeC7b. -/
def modelC7b : Model := mkModel (fun s => if s = "code7b" then some codeC7b else none) (fun _ => true)

/-- Fixture for C7: a request presenting code7b. -/
def reqC7b : Request := ⟨⟨some "code7b", none, none⟩, ⟨none⟩⟩

/-- Witness for the amended C7: the missing-client ServerError indeed comes
from a structurally invalid fetched record. -/
theorem c7_server_error_only_structural_witness :
    ∃ code, modelC7b.getAuthorizationCode (optStr reqC7b.body.code) = some code ∧
      (code.client = none ∨ code.user = none ∨ code.expiresAt = none ∨
        (strTruthy code.codeChallenge = true ∧
         code.codeChallengeMethod ≠ some "plain" ∧
         code.codeChallengeMethod ≠ some "S256")) :=
  c7_server_error_only_structural depsTrue modelC7b 0 reqC7b ⟨"c7"⟩
    "Server error: `getAuthorizationCode()` did not return a `client` object"
    (by decide)

/-- A code returned by getAuthorizationCode is the fetched record and carries
a user reference. -/
theorem getAuthorizationCode_ok_fetched (deps : Deps) (model : Model)
    (now : Int) (request : Request) (client : Client) (code : AuthorizationCode)
    (h : getAuthorizationCode deps model now request client = .ok code) :
    model.getAuthorizationCode (optStr request.body.code) = some code ∧
    ∃ u, code.user = some u := by
  unfold getAuthorizationCode at h
  repeat' split at h
  all_goals simp_all

/-- Claim C1: whenever handle reaches token persistence, the revocation
collaborator was called first on the validated code and reported truthy
consumption; and when revocation reports falsy, handle raises
InvalidGrantError and persistence is never invoked (the trace holds only the
revocation call). -/
theorem c1_revoke_gates_token_issuance (deps : Deps) (model : Model)
    (now : Int) (request : Option Request) (client : Option Client) :
    (∀ t c u,
      Event.saveTokenCalled t c u ∈ (handleRun deps model now request client).2 →
      ∃ req cl code, request = some req ∧ client = some cl ∧
        getAuthorizationCode deps model now req cl = .ok code ∧
        model.revokeAuthorizationCode code = true ∧
        (handleRun deps model now request client).2 =
          [Event.revokeCalled code, Event.saveTokenCalled t c u]) ∧
    (∀ req cl code, request = some req → client = some cl →
      getAuthorizationCode deps model now req cl = .ok code →
      validateRedirectUri deps req code = .ok () →
      model.revokeAuthorizationCode code = false →
      (handleRun deps model now request client).1 =
        .error (.invalidGrant "Invalid grant: authorization code is invalid") ∧
      (handleRun deps model now request client).2 = [Event.revokeCalled code]) := by
  constructor
  · intro t c u hmem
    cases request with
    | none => simp [handleRun] at hmem
    | some req =>
      cases client with
      | none => simp [handleRun] at hmem
      | some cl =>
        rcases hget : getAuthorizationCode deps model now req cl with e | code
        · simp [handleRun, hget] at hmem
        · rcases hval : validateRedirectUri deps req code with e | uu
          · simp [handleRun, hget, hval] at hmem
          · rcases hrev : revokeAuthorizationCode model code with e | code'
            · simp [handleRun, hget, hval, hrev] at hmem
            · obtain ⟨hrevT, rfl⟩ :=
                (revokeAuthorizationCode_ok_iff model code code').mp hrev
              simp only [handleRun, hget, hval, hrev, saveTokenRun,
                List.mem_cons, List.mem_singleton] at hmem
              rcases hmem with hmem | hmem | hmem
              · exact absurd hmem (by simp)
              · refine ⟨req, cl, code', rfl, rfl, hget, hrevT, ?_⟩
                simp only [handleRun, hget, hval, hrev, saveTokenRun]
                rw [hmem]
              · exact absurd hmem (by simp)
  · intro req cl code hreq hcl hget hval hrev
    subst hreq
    subst hcl
    have herr : revokeAuthorizationCode model code =
        .error (.invalidGrant "Invalid grant: authorization code is invalid") :=
      (revokeAuthorizationCode_error_iff model code _).mpr ⟨hrev, rfl⟩
    constructor <;> simp [handleRun, hget, hval, herr]

/-- Fixture for C1: a valid code record whose revocation will fail. -/
def codeC1 : AuthorizationCode :=
  { authorizationCode := "code1"
    client := some ⟨"c1"⟩
    user := some ⟨"u1"⟩
    expiresAt := some 1000
    redirectUri := none
    scope := "s1"
    codeChallenge := none
    codeChallengeMethod := none }

/-- Fixture for C1: the store holding codeC1, with revocation always
reporting falsy (the code was already consumed). -/
def modelC1 : Model := mkModel (fun s => if s = "code1" then some codeC1 else none) (fun _ => false)

/-- Fixture for C1: a request presenting code1. -/
def reqC1 : Request := ⟨⟨some "code1", none, none⟩, ⟨none⟩⟩

/-- Witness for C1: with a falsy revocation, the concrete run raises
InvalidGrantError and the trace holds only the revocation call. -/
theorem c1_revoke_gates_token_issuance_witness :
    (handleRun depsTrue modelC1 0 (some reqC1) (some ⟨"c1"⟩)).1 =
      .error (.invalidGrant "Invalid grant: authorization code is invalid") ∧
    (handleRun depsTrue modelC1 0 (some reqC1) (some ⟨"c1"⟩)).2 =
      [Event.revokeCalled codeC1] :=
  (c1_revoke_gates_token_issuance depsTrue modelC1 0 (some reqC1)
    (some ⟨"c1"⟩)).2 reqC1 ⟨"c1"⟩ codeC1 rfl rfl (by decide) (by decide)
    (by decide)

/-- Claim C8: every successful handle invocation hands the persistence
collaborator a Token whose authorizationCode field is the code string of the
fetched (and by then revoked) record and whose scope field is the value
resolved by scope validation. -/
theorem c8_saved_token_fields (deps : Deps) (model : Model) (now : Int)
    (req : Request) (cl : Client) (t : Token) (evs : List Event)
    (h : handleRun deps model now (some req) (some cl) = (.ok t, evs)) :
    ∃ code u token,
      getAuthorizationCode deps model now req cl = .ok code ∧
      code.user = some u ∧
      token.authorizationCode = code.authorizationCode ∧
      token.scope = model.validateScope u cl code.scope ∧
      evs = [Event.revokeCalled code, Event.saveTokenCalled token cl u] ∧
      t = model.saveToken token cl u := by
  rcases hget : getAuthorizationCode deps model now req cl with e | code
  · simp [handleRun, hget] at h
  · rcases hval : validateRedirectUri deps req code with e | uu
    · simp [handleRun, hget, hval] at h
    · rcases hrev : revokeAuthorizationCode model code with e | code'
      · simp [handleRun, hget, hval, hrev] at h
      · obtain ⟨hrevT, rfl⟩ :=
          (revokeAuthorizationCode_ok_iff model code code').mp hrev
        obtain ⟨hfetch, u, hu⟩ :=
          getAuthorizationCode_ok_fetched deps model now req cl code' hget
        have huser : userOf code' = u := by simp [userOf, hu]
        simp only [handleRun, hget, hval, hrev, saveTokenRun, Prod.mk.injEq,
          Except.ok.injEq] at h
        rw [huser] at h
        refine ⟨code', u,
          { accessToken := model.generateAccessToken cl u code'.scope
            authorizationCode := code'.authorizationCode
            accessTokenExpiresAt := model.accessTokenExpiresAt
            refreshToken := model.generateRefreshToken cl u code'.scope
            refreshTokenExpiresAt := model.refreshTokenExpiresAt
            scope := model.validateScope u cl code'.scope },
          rfl, hu, rfl, rfl, h.2.symm, h.1.symm⟩

/-- Fixture for C8: a valid challenge-free code record with scope s8. -/
def codeC8 : AuthorizationCode :=
  { authorizationCode := "code8"
    client := some ⟨"c8"⟩
    user := some ⟨"u8"⟩
    expiresAt := some 1000
    redirectUri := none
    scope := "s8"
    codeChallenge := none
    codeChallengeMethod := none }

/-- Fixture for C8: the store holding codeC8 with successful revocation. -/
def modelC8 : Model := mkModel (fun s => if s = "code8" then some codeC8 else none) (fun _ => true)

/-- Fixture for C8: a request presenting code8. -/
def reqC8 : Request := ⟨⟨some "code8", none, none⟩, ⟨none⟩⟩

/-- Fixture for C8: the token the concrete successful run persists. -/
def tokC8 : Token :=
  { accessToken := "generated-access-token"
    authorizationCode := "code8"
    accessTokenExpiresAt := 3600000
    refreshToken := "generated-refresh-token"
    refreshTokenExpiresAt := 7200000
    scope := "s8" }

/-- Witness for C8 at a concrete successful exchange of code8. -/
theorem c8_saved_token_fields_witness :
    ∃ code u token,
      getAuthorizationCode depsTrue modelC8 0 reqC8 ⟨"c8"⟩ = .ok code ∧
      code.user = some u ∧
      token.authorizationCode = code.authorizationCode ∧
      token.scope = modelC8.validateScope u ⟨"c8"⟩ code.scope ∧
      [Event.revokeCalled codeC8, Event.saveTokenCalled tokC8 ⟨"c8"⟩ ⟨"u8"⟩] =
        [Event.revokeCalled code, Event.saveTokenCalled token ⟨"c8"⟩ u] ∧
      tokC8 = modelC8.saveToken token ⟨"c8"⟩ u :=
  c8_saved_token_fields depsTrue modelC8 0 reqC8 ⟨"c8"⟩ tokC8
    [Event.revokeCalled codeC8, Event.saveTokenCalled tokC8 ⟨"c8"⟩ ⟨"u8"⟩]
    (by decide)
